import Mathlib

/-!
Shallow embedding of the product-management backend: the Express handler
functions of `productController` (createProduct, updateProduct, deleteProduct,
getNewArrivals) and the route table of `productRoutes`, over an explicit
database state (Prisma `Products`, `ProductCategory` and their many-to-many
join table) and an explicit media-host (Cloudinary) collaborator.

Modelling conventions:
* JS `undefined`/absent body fields are `Option.none`; JS string falsiness
  (`!x` true for undefined, null and "") is the `truthy` test below.
* `parseFloat`/`parseInt` results are opaque wrappers of their raw input:
  no claim inspects numeric values, only where the parses are applied.
* The media host is a pure collaborator (`Cloudinary`): `upload` and
  `destroy` return success or failure; a thrown JS exception is the `err`
  outcome.  Handlers additionally return the trace of media-host calls they
  issued, so "no upload happened" is a statement about that trace.
* The database holds exactly the rows these handlers touch: product rows,
  category rows and the category–product join table.  `Sales`/`Purchases`
  and the user/order entities are never read or written by this code and
  are outside the model.
* Each handler returns (response, new database state, media-host call
  trace); an early `return` is a branch producing its response with the
  database left as received.
-/

/-- Result of JS `parseFloat` on a (possibly undefined) string.  Opaque
wrapper: the handlers only ever store it, never branch on it. -/
structure FloatVal where
  raw : Option String
deriving DecidableEq, Repr

/-- Result of JS `parseInt` on a (possibly undefined) string.  Opaque
wrapper, as for `FloatVal`. -/
structure IntVal where
  raw : Option String
deriving DecidableEq, Repr

def parseFloat (s : Option String) : FloatVal := ⟨s⟩

def parseInt (s : Option String) : IntVal := ⟨s⟩

/-- JS truthiness of a possibly-undefined string field: undefined, null and
the empty string are falsy, every other string is truthy. -/
def truthy : Option String → Bool
  | none => false
  | some s => s != ""

/-- Multipart file as multer hands it to a handler: raw bytes, mime type and
the (disk-storage) path field. -/
structure FileUpload where
  buffer : List Nat
  mimetype : String
  path : String
deriving DecidableEq, Repr

def base64Chars : List Char :=
  "ABCDEFGHIJKLMNOPQRSTUVWXYZabcdefghijklmnopqrstuvwxyz0123456789+/".toList

def base64Char (n : Nat) : Char := base64Chars.getD n 'A'

/-- Standard base64 of a byte list, as `Buffer.toString('base64')`. -/
def base64Encode : List Nat → String
  | [] => ""
  | [a] =>
      String.mk [base64Char (a / 4), base64Char (a % 4 * 16), '=', '=']
  | [a, b] =>
      String.mk [base64Char (a / 4), base64Char (a % 4 * 16 + b / 16),
        base64Char (b % 16 * 4), '=']
  | a :: b :: c :: rest =>
      String.mk [base64Char (a / 4), base64Char (a % 4 * 16 + b / 16),
        base64Char (b % 16 * 4 + c / 64), base64Char (c % 64)]
        ++ base64Encode rest

/-- Outcome of `cloudinary.uploader.upload`: the secure URL on success, a
thrown error otherwise. -/
inductive UploadResult where
  | ok (secure_url : String)
  | err (msg : String)
deriving DecidableEq, Repr

/-- Outcome of `cloudinary.uploader.destroy`: success, or a thrown error. -/
inductive DestroyResult where
  | ok
  | err (msg : String)
deriving DecidableEq, Repr

/-- The media-host collaborator: what each upload argument and each destroy
public id would return on this request. -/
structure Cloudinary where
  upload : String → UploadResult
  destroy : String → DestroyResult

/-- One media-host call issued by a handler, with its argument. -/
inductive CloudCall where
  | upload (arg : String)
  | destroy (publicId : String)
deriving DecidableEq, Repr

/-- Row of the Prisma `Products` model (the fields this code reads or
writes; `updatedAt` and the sales/purchase relations are untouched). -/
structure ProductRow where
  productId : String
  name : String
  price : FloatVal
  stockQuantity : IntVal
  imageUrl : Option String
  createdAt : Int
deriving DecidableEq, Repr

/-- Row of the Prisma `ProductCategory` model. -/
structure CategoryRow where
  categoryId : String
  name : String
  description : Option String
deriving DecidableEq, Repr

/-- Database state: product rows, category rows, and the many-to-many join
table `_ProductCategoryToProducts` as (categoryId, productId) pairs. -/
structure Db where
  products : List ProductRow
  categories : List CategoryRow
  links : List (String × String)
deriving DecidableEq, Repr

/-- Prisma `include: { categories: true }` on a product: the category rows
linked to the given product id through the join table. -/
def Db.categoriesOf (db : Db) (pid : String) : List CategoryRow :=
  db.categories.filter (fun c => db.links.any (fun l => l.1 == c.categoryId && l.2 == pid))

/-- Prisma `products.create` with `categories: { connect: { categoryId } }`:
fails (throws) on a duplicate product id or a missing category; on success
appends the row and one join-table link. -/
def Db.createProduct (db : Db) (row : ProductRow) (cid : String) : Option Db :=
  if db.products.any (fun p => p.productId == row.productId) then none
  else if db.categories.any (fun c => c.categoryId == cid) then
    some { db with products := db.products ++ [row],
                   links := db.links ++ [(cid, row.productId)] }
  else none

/-- Prisma `products.update` with `categories: { set: [], connect:
{ categoryId } }`: requires the row and the category to exist (an undefined
`categoryId` in `connect` also throws); a `none` field in `data` (here
`name`) leaves the column unchanged; the join table is reset to the single
new link. -/
def Db.updateProduct (db : Db) (pid : String) (name : Option String)
    (price : FloatVal) (stock : IntVal) (imageUrl : Option String)
    (categoryId : Option String) : Option (Db × ProductRow) :=
  match db.products.find? (fun p => p.productId == pid), categoryId with
  | some old, some cid =>
      if db.categories.any (fun c => c.categoryId == cid) then
        let row : ProductRow :=
          { old with name := name.getD old.name, price := price,
                     stockQuantity := stock, imageUrl := imageUrl }
        some ({ db with
                  products := db.products.map (fun p => if p.productId == pid then row else p),
                  links := db.links.filter (fun l => l.2 != pid) ++ [(cid, pid)] },
              row)
      else none
  | _, _ => none

/-- Prisma `products.delete` cascade: drops the row and its join-table
links. -/
def Db.deleteProduct (db : Db) (pid : String) : Db :=
  { db with products := db.products.filter (fun p => p.productId != pid),
            links := db.links.filter (fun l => l.2 != pid) }

/-- Create-product request: body fields as multipart strings (absent =
`none`) and the multer file. -/
structure CreateReq where
  productId : Option String
  name : Option String
  price : Option String
  stockQuantity : Option String
  categoryId : Option String
  file : Option FileUpload
deriving DecidableEq, Repr

/-- Update-product request: the `:productId` route param, body fields and
the (never-populated, see the route table) file. -/
structure UpdateReq where
  productId : String
  name : Option String
  price : Option String
  stockQuantity : Option String
  categoryId : Option String
  file : Option FileUpload
deriving DecidableEq, Repr

/-- Responses `createProduct` can send. -/
inductive CreateProductResp where
  | missing (missingFields : List String)
  | uploadError
  | created (product : ProductRow) (categories : List CategoryRow)
  | serverError
deriving DecidableEq, Repr

def CreateProductResp.status : CreateProductResp → Nat
  | .missing _ => 400
  | .uploadError => 500
  | .created _ _ => 201
  | .serverError => 500

def CreateProductResp.message : CreateProductResp → Option String
  | .missing _ => some "Missing required fields"
  | .uploadError => some "Error uploading image"
  | .created _ _ => none
  | .serverError => some "Server error"

/-- Responses `updateProduct` can send. -/
inductive UpdateProductResp where
  | notFound
  | imageError
  | updated (product : ProductRow) (categories : List CategoryRow)
  | serverError
deriving DecidableEq, Repr

def UpdateProductResp.status : UpdateProductResp → Nat
  | .notFound => 404
  | .imageError => 500
  | .updated _ _ => 200
  | .serverError => 500

def UpdateProductResp.message : UpdateProductResp → Option String
  | .notFound => some "Product not found"
  | .imageError => some "Error handling image update"
  | .updated _ _ => none
  | .serverError => some "Error updating product"

/-- Responses `deleteProduct` can send. -/
inductive DeleteProductResp where
  | notFound
  | deleted
  | serverError
deriving DecidableEq, Repr

def DeleteProductResp.status : DeleteProductResp → Nat
  | .notFound => 404
  | .deleted => 200
  | .serverError => 500

def DeleteProductResp.message : DeleteProductResp → String
  | .notFound => "Product not found"
  | .deleted => "Product deleted successfully"
  | .serverError => "Error deleting product"

/-- Field-validation pass of `createProduct`: field names pushed in source
order for each falsy body field, with `image` for a missing file. -/
def computeMissingFields (req : CreateReq) : List String :=
  (if truthy req.name then [] else ["name"]) ++
  (if truthy req.price then [] else ["price"]) ++
  (if truthy req.stockQuantity then [] else ["stockQuantity"]) ++
  (if truthy req.categoryId then [] else ["categoryId"]) ++
  (if req.file.isSome then [] else ["image"])

/-- The `data:<mime>;base64,<bytes>` URI `createProduct` uploads. -/
def dataURIOf (file : FileUpload) : String :=
  "data:" ++ file.mimetype ++ ";base64," ++ base64Encode file.buffer

/-- Database-write tail of `createProduct` (the `prisma.products.create`
call and the 201 response), reached after validation and any upload.  A
missing required scalar (`productId`, `name`, `categoryId`) or a failing
`create` is the thrown-to-catch-all 500 path. -/
def createDbWrite (now : Int) (req : CreateReq) (db : Db)
    (imageUrl : Option String) (calls : List CloudCall) :
    CreateProductResp × Db × List CloudCall :=
  match req.productId, req.name, req.categoryId with
  | some pid, some nm, some cid =>
      let row : ProductRow :=
        { productId := pid, name := nm, price := parseFloat req.price,
          stockQuantity := parseInt req.stockQuantity, imageUrl := imageUrl,
          createdAt := now }
      match db.createProduct row cid with
      | some db2 => (.created row (db2.categoriesOf pid), db2, calls)
      | none => (.serverError, db, calls)
  | _, _, _ => (.serverError, db, calls)

/-- The `createProduct` handler: validate fields, upload the image if a file
is present (500 `Error uploading image` on failure, before any database
write), then create the row connected to the one category. -/
def createProduct (cloud : Cloudinary) (now : Int) (req : CreateReq) (db : Db) :
    CreateProductResp × Db × List CloudCall :=
  let missingFields := computeMissingFields req
  if missingFields.length > 0 then
    (.missing missingFields, db, [])
  else
    match req.file with
    | some file =>
        let dataURI := dataURIOf file
        match cloud.upload dataURI with
        | .err _ => (.uploadError, db, [.upload dataURI])
        | .ok secureUrl => createDbWrite now req db (some secureUrl) [.upload dataURI]
    | none => createDbWrite now req db none []

/-- JS `String.prototype.split` with a single-character separator, over the
character list: splitting the empty string gives one empty segment, and
adjacent separators give empty segments, exactly as in JS. -/
def splitOnChar (sep : Char) : List Char → List (List Char)
  | [] => [[]]
  | c :: rest =>
      match splitOnChar sep rest with
      | [] => [[]]
      | seg :: segs => if c = sep then [] :: seg :: segs else (c :: seg) :: segs

/-- Public-id derivation `url.split('/').pop()?.split('.')[0]`: last path
segment of the stored URL, truncated at its first dot. -/
def publicIdOf (url : String) : String :=
  String.mk ((splitOnChar '.' ((splitOnChar '/' url.toList).getLastD [])).headD [])

/-- Database-write tail of `updateProduct` (the `prisma.products.update`
call with the category reset and the 200 response); a failing `update` is
the catch-all 500 `Error updating product`. -/
def updateDbWrite (req : UpdateReq) (db : Db) (imageUrl : Option String)
    (calls : List CloudCall) : UpdateProductResp × Db × List CloudCall :=
  match db.updateProduct req.productId req.name (parseFloat req.price)
      (parseInt req.stockQuantity) imageUrl req.categoryId with
  | some (db2, row) => (.updated row (db2.categoriesOf req.productId), db2, calls)
  | none => (.serverError, db, calls)

/-- The `updateProduct` handler: 404 if the row is absent; if a file is
supplied, destroy the old image (when its derived public id is truthy) and
upload the new one, any media-host failure being fatal (500 `Error handling
image update`, before the database write); then update the row, resetting
its category links to the single supplied category. -/
def updateProduct (cloud : Cloudinary) (req : UpdateReq) (db : Db) :
    UpdateProductResp × Db × List CloudCall :=
  match db.products.find? (fun p => p.productId == req.productId) with
  | none => (.notFound, db, [])
  | some existingProduct =>
      match req.file with
      | none => updateDbWrite req db existingProduct.imageUrl []
      | some file =>
          let destroyCalls : List CloudCall :=
            match existingProduct.imageUrl with
            | some url =>
                if publicIdOf url != "" then
                  [.destroy ("products/" ++ publicIdOf url)]
                else []
            | none => []
          let destroyFailed : Bool :=
            match existingProduct.imageUrl with
            | some url =>
                if publicIdOf url != "" then
                  match cloud.destroy ("products/" ++ publicIdOf url) with
                  | .err _ => true
                  | .ok => false
                else false
            | none => false
          if destroyFailed then (.imageError, db, destroyCalls)
          else
            match cloud.upload file.path with
            | .err _ => (.imageError, db, destroyCalls ++ [.upload file.path])
            | .ok secureUrl =>
                updateDbWrite req db (some secureUrl) (destroyCalls ++ [.upload file.path])

/-- The `deleteProduct` handler: 404 if the row is absent; attempt the
remote image destroy (its failure is caught and swallowed — the result is
never inspected); then delete the row and respond 200. -/
def deleteProduct (_cloud : Cloudinary) (productId : String) (db : Db) :
    DeleteProductResp × Db × List CloudCall :=
  match db.products.find? (fun p => p.productId == productId) with
  | none => (.notFound, db, [])
  | some product =>
      let destroyCalls : List CloudCall :=
        match product.imageUrl with
        | some url =>
            if publicIdOf url != "" then
              [.destroy ("products/" ++ publicIdOf url)]
            else []
        | none => []
      (.deleted, db.deleteProduct productId, destroyCalls)

/-- Category paired with the product list its `include` returned. -/
structure CategoryWithProducts where
  category : CategoryRow
  products : List ProductRow
deriving DecidableEq, Repr

/-- Recency test of the new-arrivals query: `createdAt: { gte: cutoff }`
where `cutoff` is the clock value two months before now. -/
def isRecent (cutoff : Int) (p : ProductRow) : Bool :=
  decide (cutoff ≤ p.createdAt)

def linkedTo (db : Db) (cid pid : String) : Bool :=
  db.links.any (fun l => l.1 == cid && l.2 == pid)

/-- Included product list of one category in the new-arrivals query: its
linked products created within the window, ordered by `createdAt`
descending. -/
def recentProductsOf (db : Db) (cutoff : Int) (cid : String) : List ProductRow :=
  (db.products.filter (fun p => linkedTo db cid p.productId && isRecent cutoff p)).mergeSort
    (fun a b => decide (b.createdAt ≤ a.createdAt))

/-- The `getNewArrivals` handler body: `findMany` over categories with the
`some`-recent-product `where` clause and the recent-products `include`,
followed by the post-query filter dropping empty product lists. -/
def getNewArrivals (db : Db) (cutoff : Int) : List CategoryWithProducts :=
  let newArrivals :=
    (db.categories.filter (fun c =>
      db.products.any (fun p => linkedTo db c.categoryId p.productId && isRecent cutoff p))).map
      (fun c => { category := c, products := recentProductsOf db cutoff c.categoryId })
  newArrivals.filter (fun cw => cw.products.length > 0)

/-- The `getNewArrivals` query without the post-query empty-list filter,
for the redundancy claim. -/
def getNewArrivalsNoPostFilter (db : Db) (cutoff : Int) : List CategoryWithProducts :=
  (db.categories.filter (fun c =>
    db.products.any (fun p => linkedTo db c.categoryId p.productId && isRecent cutoff p))).map
    (fun c => { category := c, products := recentProductsOf db cutoff c.categoryId })

/-- Middleware an individual route can mount; the only one in this router is
multer's `upload.single('image')`. -/
inductive Middleware where
  | uploadSingleImage
deriving DecidableEq, Repr

/-- One route registration: method, path, mounted middleware, handler. -/
structure Route where
  method : String
  path : String
  middlewares : List Middleware
  handler : String
deriving DecidableEq, Repr

/-- The router's registrations, in source order. -/
def routes : List Route :=
  [ ⟨"get", "/", [], "getProducts"⟩,
    ⟨"post", "/", [.uploadSingleImage], "createProduct"⟩,
    ⟨"put", "/products/:productId", [], "updateProduct"⟩,
    ⟨"delete", "/products/:productId", [], "deleteProduct"⟩,
    ⟨"post", "/categories", [], "createProductCategory"⟩,
    ⟨"delete", "/categories/:categoryId", [], "deleteProductCategory"⟩,
    ⟨"get", "/categories", [], "getProductCategories"⟩,
    ⟨"get", "/categories/:categoryId/products", [], "getProductsByCategory"⟩,
    ⟨"post", "/categories/add-product", [], "addProductToCategory"⟩,
    ⟨"get", "/newArrivals", [], "getNewArrivals"⟩ ]

/-- Helper: in a category list with pairwise-distinct ids, filtering by one
id that some member carries yields exactly that member. -/
theorem filter_eq_singleton_of_unique {l : List CategoryRow} {cat : CategoryRow} {cid : String}
    (hu : l.Pairwise (fun a b => a.categoryId ≠ b.categoryId))
    (hmem : cat ∈ l) (hid : cat.categoryId = cid) :
    l.filter (fun c => c.categoryId == cid) = [cat] := by
  induction l with
  | nil => cases hmem
  | cons hd tl ih =>
      rcases List.pairwise_cons.mp hu with ⟨hhd, htl⟩
      rcases List.mem_cons.mp hmem with heq | hmem2
      · subst heq
        rw [List.filter_cons_of_pos (by simp [hid])]
        have hnil : tl.filter (fun c => c.categoryId == cid) = [] := by
          rw [List.filter_eq_nil_iff]
          intro c hc
          simp only [beq_iff_eq]
          intro hcc
          exact (hhd c hc) (hid.trans hcc.symm)
        rw [hnil]
      · have hne : hd.categoryId ≠ cid := by
          intro h
          exact (hhd cat hmem2) (h.trans hid.symm)
        rw [List.filter_cons_of_neg (by simp [beq_iff_eq, hne])]
        exact ih htl hmem2

/-- C4: a create-product request missing any of name, price, stockQuantity,
categoryId or the image file is answered 400 `Missing required fields` with
exactly the absent fields listed, the database unchanged and no media-host
call made. -/
theorem createProduct_missing_field_validation (cloud : Cloudinary) (now : Int)
    (req : CreateReq) (db : Db)
    (h : truthy req.name = false ∨ truthy req.price = false ∨
         truthy req.stockQuantity = false ∨ truthy req.categoryId = false ∨
         req.file = none) :
    createProduct cloud now req db = (.missing (computeMissingFields req), db, []) ∧
    (CreateProductResp.missing (computeMissingFields req)).status = 400 ∧
    ("name" ∈ computeMissingFields req ↔ truthy req.name = false) ∧
    ("price" ∈ computeMissingFields req ↔ truthy req.price = false) ∧
    ("stockQuantity" ∈ computeMissingFields req ↔ truthy req.stockQuantity = false) ∧
    ("categoryId" ∈ computeMissingFields req ↔ truthy req.categoryId = false) ∧
    ("image" ∈ computeMissingFields req ↔ req.file = none) := by
  have hlen : 0 < (computeMissingFields req).length := by
    rcases h with h | h | h | h | h <;>
      simp [computeMissingFields, h, List.length_append]
  refine ⟨?_, rfl, ?_, ?_, ?_, ?_, ?_⟩
  · simp only [createProduct]
    rw [if_pos hlen]
  all_goals
    rcases hn : truthy req.name <;> rcases hp : truthy req.price <;>
      rcases hs : truthy req.stockQuantity <;> rcases hc : truthy req.categoryId <;>
      rcases hf : req.file <;>
      simp [computeMissingFields, hn, hp, hs, hc, hf]

/-- Witness for C4: a request missing price and the image file. -/
theorem createProduct_missing_field_validation_witness :
    (truthy (some "Mug") = false ∨ truthy (none : Option String) = false ∨
       truthy (some "7") = false ∨ truthy (some "c1") = false ∨
       (some ⟨[1, 2], "image/png", "p"⟩ : Option FileUpload) = none) ∧
    (createProduct ⟨fun _ => .ok "u", fun _ => .ok⟩ 0
        ⟨some "p1", some "Mug", none, some "7", some "c1", some ⟨[1, 2], "image/png", "p"⟩⟩
        ⟨[], [], []⟩
      = (.missing (computeMissingFields
          ⟨some "p1", some "Mug", none, some "7", some "c1", some ⟨[1, 2], "image/png", "p"⟩⟩),
         ⟨[], [], []⟩, []) ∧
     (CreateProductResp.missing (computeMissingFields
        ⟨some "p1", some "Mug", none, some "7", some "c1", some ⟨[1, 2], "image/png", "p"⟩⟩)).status = 400 ∧
     ("name" ∈ computeMissingFields
        ⟨some "p1", some "Mug", none, some "7", some "c1", some ⟨[1, 2], "image/png", "p"⟩⟩ ↔
          truthy (some "Mug") = false) ∧
     ("price" ∈ computeMissingFields
        ⟨some "p1", some "Mug", none, some "7", some "c1", some ⟨[1, 2], "image/png", "p"⟩⟩ ↔
          truthy (none : Option String) = false) ∧
     ("stockQuantity" ∈ computeMissingFields
        ⟨some "p1", some "Mug", none, some "7", some "c1", some ⟨[1, 2], "image/png", "p"⟩⟩ ↔
          truthy (some "7") = false) ∧
     ("categoryId" ∈ computeMissingFields
        ⟨some "p1", some "Mug", none, some "7", some "c1", some ⟨[1, 2], "image/png", "p"⟩⟩ ↔
          truthy (some "c1") = false) ∧
     ("image" ∈ computeMissingFields
        ⟨some "p1", some "Mug", none, some "7", some "c1", some ⟨[1, 2], "image/png", "p"⟩⟩ ↔
          (some ⟨[1, 2], "image/png", "p"⟩ : Option FileUpload) = none)) :=
  ⟨Or.inr (Or.inl (by decide)),
   createProduct_missing_field_validation ⟨fun _ => .ok "u", fun _ => .ok⟩ 0
     ⟨some "p1", some "Mug", none, some "7", some "c1", some ⟨[1, 2], "image/png", "p"⟩⟩
     ⟨[], [], []⟩ (Or.inr (Or.inl (by decide)))⟩

/-- C1: when validation passes but the media-host upload throws,
`createProduct` answers 500 `Error uploading image` having issued only the
upload call, and the database is exactly as received — no product row was
created. -/
theorem createProduct_upload_failure_aborts (cloud : Cloudinary) (now : Int)
    (req : CreateReq) (db : Db) (file : FileUpload) (msg : String)
    (hmf : computeMissingFields req = [])
    (hfile : req.file = some file)
    (hup : cloud.upload (dataURIOf file) = .err msg) :
    createProduct cloud now req db = (.uploadError, db, [.upload (dataURIOf file)]) ∧
    CreateProductResp.uploadError.status = 500 ∧
    CreateProductResp.uploadError.message = some "Error uploading image" := by
  refine ⟨?_, rfl, rfl⟩
  simp only [createProduct, hmf, List.length_nil, gt_iff_lt, lt_irrefl, if_false, hfile, hup]

/-- Witness for C1: a fully-populated request whose upload throws. -/
theorem createProduct_upload_failure_aborts_witness :
    computeMissingFields ⟨some "p1", some "Mug", some "9.5", some "7", some "c1",
        some ⟨[77], "image/png", "p"⟩⟩ = [] ∧
    (⟨some "p1", some "Mug", some "9.5", some "7", some "c1",
        some ⟨[77], "image/png", "p"⟩⟩ : CreateReq).file = some ⟨[77], "image/png", "p"⟩ ∧
    (⟨fun _ => .err "boom", fun _ => .ok⟩ : Cloudinary).upload
        (dataURIOf ⟨[77], "image/png", "p"⟩) = .err "boom" ∧
    (createProduct ⟨fun _ => .err "boom", fun _ => .ok⟩ 0
        ⟨some "p1", some "Mug", some "9.5", some "7", some "c1", some ⟨[77], "image/png", "p"⟩⟩
        ⟨[], [⟨"c1", "Cups", none⟩], []⟩
      = (.uploadError, ⟨[], [⟨"c1", "Cups", none⟩], []⟩,
         [.upload (dataURIOf ⟨[77], "image/png", "p"⟩)]) ∧
     CreateProductResp.uploadError.status = 500 ∧
     CreateProductResp.uploadError.message = some "Error uploading image") :=
  ⟨by decide, rfl, rfl,
   createProduct_upload_failure_aborts ⟨fun _ => .err "boom", fun _ => .ok⟩ 0
     ⟨some "p1", some "Mug", some "9.5", some "7", some "c1", some ⟨[77], "image/png", "p"⟩⟩
     ⟨[], [⟨"c1", "Cups", none⟩], []⟩ ⟨[77], "image/png", "p"⟩ "boom"
     (by decide) rfl rfl⟩

/-- C6: updating a product id that matches no row is answered 404 `Product
not found` with no media-host call and the database exactly as received. -/
theorem updateProduct_not_found_no_side_effects (cloud : Cloudinary)
    (req : UpdateReq) (db : Db)
    (habsent : ∀ p ∈ db.products, p.productId ≠ req.productId) :
    updateProduct cloud req db = (.notFound, db, []) ∧
    UpdateProductResp.notFound.status = 404 ∧
    UpdateProductResp.notFound.message = some "Product not found" := by
  have hfind : db.products.find? (fun p => p.productId == req.productId) = none := by
    rw [List.find?_eq_none]
    intro p hp
    simp [beq_iff_eq]
    exact habsent p hp
  refine ⟨?_, rfl, rfl⟩
  simp only [updateProduct, hfind]

/-- Witness for C6: an unknown product id over a one-product database. -/
theorem updateProduct_not_found_no_side_effects_witness :
    (∀ p ∈ ([⟨"p1", "Mug", ⟨some "9.5"⟩, ⟨some "7"⟩, none, 0⟩] : List ProductRow),
        p.productId ≠ "ghost") ∧
    (updateProduct ⟨fun _ => .ok "u", fun _ => .ok⟩
        ⟨"ghost", some "Mug", some "9.5", some "7", some "c1", none⟩
        ⟨[⟨"p1", "Mug", ⟨some "9.5"⟩, ⟨some "7"⟩, none, 0⟩], [⟨"c1", "Cups", none⟩], [("c1", "p1")]⟩
      = (.notFound,
         ⟨[⟨"p1", "Mug", ⟨some "9.5"⟩, ⟨some "7"⟩, none, 0⟩], [⟨"c1", "Cups", none⟩], [("c1", "p1")]⟩,
         []) ∧
     UpdateProductResp.notFound.status = 404 ∧
     UpdateProductResp.notFound.message = some "Product not found") :=
  ⟨by decide,
   updateProduct_not_found_no_side_effects ⟨fun _ => .ok "u", fun _ => .ok⟩
     ⟨"ghost", some "Mug", some "9.5", some "7", some "c1", none⟩
     ⟨[⟨"p1", "Mug", ⟨some "9.5"⟩, ⟨some "7"⟩, none, 0⟩], [⟨"c1", "Cups", none⟩], [("c1", "p1")]⟩
     (by decide)⟩

/-- C2: when the product exists and the remote image destroy throws,
`deleteProduct` absorbs the failure: the row (and its links) are removed
from the database and the response is 200 `Product deleted successfully`. -/
theorem deleteProduct_absorbs_destroy_failure (cloud : Cloudinary)
    (pid : String) (db : Db) (product : ProductRow) (url msg : String)
    (hfind : db.products.find? (fun p => p.productId == pid) = some product)
    (hurl : product.imageUrl = some url)
    (hkey : publicIdOf url ≠ "")
    (_hdestroy : cloud.destroy ("products/" ++ publicIdOf url) = .err msg) :
    deleteProduct cloud pid db
      = (.deleted, db.deleteProduct pid, [.destroy ("products/" ++ publicIdOf url)]) ∧
    DeleteProductResp.deleted.status = 200 ∧
    DeleteProductResp.deleted.message = "Product deleted successfully" ∧
    ∀ p ∈ (deleteProduct cloud pid db).2.1.products, p.productId ≠ pid := by
  have hmain : deleteProduct cloud pid db
      = (.deleted, db.deleteProduct pid, [.destroy ("products/" ++ publicIdOf url)]) := by
    simp only [deleteProduct, hfind, hurl]
    rw [if_pos (by simp [hkey])]
  refine ⟨hmain, rfl, rfl, ?_⟩
  rw [hmain]
  intro p hp
  have := (List.mem_filter.mp hp).2
  simpa using this

/-- Witness for C2: deleting the only product while every destroy throws. -/
theorem deleteProduct_absorbs_destroy_failure_witness :
    (⟨[⟨"p1", "Mug", ⟨some "9.5"⟩, ⟨some "7"⟩, some "https://host/products/mug1.png", 0⟩],
       [⟨"c1", "Cups", none⟩], [("c1", "p1")]⟩ : Db).products.find?
        (fun p => p.productId == "p1")
      = some ⟨"p1", "Mug", ⟨some "9.5"⟩, ⟨some "7"⟩, some "https://host/products/mug1.png", 0⟩ ∧
    (⟨"p1", "Mug", ⟨some "9.5"⟩, ⟨some "7"⟩, some "https://host/products/mug1.png", 0⟩
        : ProductRow).imageUrl = some "https://host/products/mug1.png" ∧
    publicIdOf "https://host/products/mug1.png" ≠ "" ∧
    (⟨fun _ => .ok "u", fun _ => .err "down"⟩ : Cloudinary).destroy
        ("products/" ++ publicIdOf "https://host/products/mug1.png") = .err "down" ∧
    (deleteProduct ⟨fun _ => .ok "u", fun _ => .err "down"⟩ "p1"
        ⟨[⟨"p1", "Mug", ⟨some "9.5"⟩, ⟨some "7"⟩, some "https://host/products/mug1.png", 0⟩],
          [⟨"c1", "Cups", none⟩], [("c1", "p1")]⟩
      = (.deleted,
         Db.deleteProduct
           ⟨[⟨"p1", "Mug", ⟨some "9.5"⟩, ⟨some "7"⟩, some "https://host/products/mug1.png", 0⟩],
             [⟨"c1", "Cups", none⟩], [("c1", "p1")]⟩ "p1",
         [.destroy ("products/" ++ publicIdOf "https://host/products/mug1.png")]) ∧
     DeleteProductResp.deleted.status = 200 ∧
     DeleteProductResp.deleted.message = "Product deleted successfully" ∧
     ∀ p ∈ (deleteProduct ⟨fun _ => .ok "u", fun _ => .err "down"⟩ "p1"
         ⟨[⟨"p1", "Mug", ⟨some "9.5"⟩, ⟨some "7"⟩, some "https://host/products/mug1.png", 0⟩],
           [⟨"c1", "Cups", none⟩], [("c1", "p1")]⟩).2.1.products,
       p.productId ≠ "p1") :=
  ⟨by decide, rfl, by decide, rfl,
   deleteProduct_absorbs_destroy_failure ⟨fun _ => .ok "u", fun _ => .err "down"⟩ "p1"
     ⟨[⟨"p1", "Mug", ⟨some "9.5"⟩, ⟨some "7"⟩, some "https://host/products/mug1.png", 0⟩],
       [⟨"c1", "Cups", none⟩], [("c1", "p1")]⟩
     ⟨"p1", "Mug", ⟨some "9.5"⟩, ⟨some "7"⟩, some "https://host/products/mug1.png", 0⟩
     "https://host/products/mug1.png" "down" (by decide) rfl (by decide) rfl⟩

/-- C3: when an update supplies a new image file and the destroy of the old
image (addressed by `products/` plus the last URL segment stripped of its
extension) throws, `updateProduct` answers 500 `Error handling image update`
before the database write — the database is exactly as received — whereas
`deleteProduct` under the same failing destroy still answers `deleted`. -/
theorem updateProduct_destroy_failure_fatal (cloud : Cloudinary)
    (req : UpdateReq) (db : Db) (existing : ProductRow) (file : FileUpload)
    (url msg : String)
    (hfind : db.products.find? (fun p => p.productId == req.productId) = some existing)
    (hfile : req.file = some file)
    (hurl : existing.imageUrl = some url)
    (hkey : publicIdOf url ≠ "")
    (hdestroy : cloud.destroy ("products/" ++ publicIdOf url) = .err msg) :
    updateProduct cloud req db
      = (.imageError, db, [.destroy ("products/" ++ publicIdOf url)]) ∧
    UpdateProductResp.imageError.status = 500 ∧
    UpdateProductResp.imageError.message = some "Error handling image update" ∧
    (deleteProduct cloud req.productId db).1 = .deleted := by
  have hkeyb : (publicIdOf url != "") = true := by simp [hkey]
  refine ⟨?_, rfl, rfl, ?_⟩
  · simp only [updateProduct, hfind, hfile, hurl, hkeyb, if_true, hdestroy]
  · simp only [deleteProduct, hfind]

/-- Witness for C3: an update of the only product with a failing destroy. -/
theorem updateProduct_destroy_failure_fatal_witness :
    (⟨[⟨"p1", "Mug", ⟨some "9.5"⟩, ⟨some "7"⟩, some "https://host/products/mug1.png", 0⟩],
       [⟨"c1", "Cups", none⟩], [("c1", "p1")]⟩ : Db).products.find?
        (fun p => p.productId ==
          (⟨"p1", some "Cup", some "8", some "4", some "c1",
             some ⟨[3], "image/png", "tmp"⟩⟩ : UpdateReq).productId)
      = some ⟨"p1", "Mug", ⟨some "9.5"⟩, ⟨some "7"⟩, some "https://host/products/mug1.png", 0⟩ ∧
    (⟨"p1", some "Cup", some "8", some "4", some "c1",
        some ⟨[3], "image/png", "tmp"⟩⟩ : UpdateReq).file = some ⟨[3], "image/png", "tmp"⟩ ∧
    (⟨"p1", "Mug", ⟨some "9.5"⟩, ⟨some "7"⟩, some "https://host/products/mug1.png", 0⟩
        : ProductRow).imageUrl = some "https://host/products/mug1.png" ∧
    publicIdOf "https://host/products/mug1.png" ≠ "" ∧
    (⟨fun _ => .ok "u", fun _ => .err "down"⟩ : Cloudinary).destroy
        ("products/" ++ publicIdOf "https://host/products/mug1.png") = .err "down" ∧
    (updateProduct ⟨fun _ => .ok "u", fun _ => .err "down"⟩
        ⟨"p1", some "Cup", some "8", some "4", some "c1", some ⟨[3], "image/png", "tmp"⟩⟩
        ⟨[⟨"p1", "Mug", ⟨some "9.5"⟩, ⟨some "7"⟩, some "https://host/products/mug1.png", 0⟩],
          [⟨"c1", "Cups", none⟩], [("c1", "p1")]⟩
      = (.imageError,
         ⟨[⟨"p1", "Mug", ⟨some "9.5"⟩, ⟨some "7"⟩, some "https://host/products/mug1.png", 0⟩],
           [⟨"c1", "Cups", none⟩], [("c1", "p1")]⟩,
         [.destroy ("products/" ++ publicIdOf "https://host/products/mug1.png")]) ∧
     UpdateProductResp.imageError.status = 500 ∧
     UpdateProductResp.imageError.message = some "Error handling image update" ∧
     (deleteProduct ⟨fun _ => .ok "u", fun _ => .err "down"⟩
        (⟨"p1", some "Cup", some "8", some "4", some "c1",
           some ⟨[3], "image/png", "tmp"⟩⟩ : UpdateReq).productId
        ⟨[⟨"p1", "Mug", ⟨some "9.5"⟩, ⟨some "7"⟩, some "https://host/products/mug1.png", 0⟩],
          [⟨"c1", "Cups", none⟩], [("c1", "p1")]⟩).1 = .deleted) :=
  ⟨by decide, rfl, rfl, by decide, rfl,
   updateProduct_destroy_failure_fatal ⟨fun _ => .ok "u", fun _ => .err "down"⟩
     ⟨"p1", some "Cup", some "8", some "4", some "c1", some ⟨[3], "image/png", "tmp"⟩⟩
     ⟨[⟨"p1", "Mug", ⟨some "9.5"⟩, ⟨some "7"⟩, some "https://host/products/mug1.png", 0⟩],
       [⟨"c1", "Cups", none⟩], [("c1", "p1")]⟩
     ⟨"p1", "Mug", ⟨some "9.5"⟩, ⟨some "7"⟩, some "https://host/products/mug1.png", 0⟩
     ⟨[3], "image/png", "tmp"⟩ "https://host/products/mug1.png" "down"
     (by decide) rfl rfl (by decide) rfl⟩

/-- Helper: inversion of a successful Prisma product update — the row and
the category existed, the returned row is the old one with the scalar
columns and image overwritten, and the join table was reset to the single
new link. -/
theorem Db.updateProduct_inv {db : Db} {pid : String} {name : Option String}
    {price : FloatVal} {stock : IntVal} {imageUrl : Option String}
    {categoryId : Option String} {db2 : Db} {row : ProductRow}
    (h : db.updateProduct pid name price stock imageUrl categoryId = some (db2, row)) :
    ∃ old cid, db.products.find? (fun p => p.productId == pid) = some old ∧
      categoryId = some cid ∧
      db.categories.any (fun c => c.categoryId == cid) = true ∧
      row = { old with name := name.getD old.name, price := price,
                       stockQuantity := stock, imageUrl := imageUrl } ∧
      db2 = { db with
                products := db.products.map (fun p => if p.productId == pid then row else p),
                links := db.links.filter (fun l => l.2 != pid) ++ [(cid, pid)] } := by
  rcases hfind : db.products.find? (fun p => p.productId == pid) with _ | old
  · simp [Db.updateProduct, hfind] at h
  · rcases hcid : categoryId with _ | cid
    · simp [Db.updateProduct, hfind, hcid] at h
    · by_cases hany : db.categories.any (fun c => c.categoryId == cid) = true
      · simp only [Db.updateProduct, hfind, hcid, hany, if_true, Option.some.injEq,
          Prod.mk.injEq] at h
        obtain ⟨hdb2, hrow⟩ := h
        refine ⟨old, cid, hfind, rfl, hany, hrow.symm, ?_⟩
        rw [← hdb2, hrow]
      · simp [Db.updateProduct, hfind, hcid, hany] at h

/-- Helper: after a category reset writing the single link `(cid, pid)`,
the categories included for `pid` are exactly those whose id is `cid`. -/
theorem categoriesOf_reset_link (db : Db) (pid cid : String) (ps : List ProductRow) :
    Db.categoriesOf ⟨ps, db.categories, db.links.filter (fun l => l.2 != pid) ++ [(cid, pid)]⟩ pid
      = db.categories.filter (fun c => c.categoryId == cid) := by
  unfold Db.categoriesOf
  apply List.filter_congr
  intro c _
  rw [Bool.eq_iff_iff]
  simp only [List.any_append, Bool.or_eq_true, List.any_eq_true, List.mem_filter,
    Bool.and_eq_true, beq_iff_eq, bne_iff_ne, List.any_cons, List.any_nil, Bool.or_false]
  constructor
  · rintro (⟨l, ⟨_, hne⟩, _, h2⟩ | ⟨h1, _⟩)
    · exact absurd h2 hne
    · exact h1.symm
  · intro h
    exact Or.inr ⟨h.symm, trivial⟩

/-- Helper: a 200 response from the database-write tail of the update
handler means the Prisma update succeeded and returned exactly the response
row and the categories included for the product id. -/
theorem updateDbWrite_updated_inv {req : UpdateReq} {db : Db}
    {imageUrl : Option String} {calls : List CloudCall}
    {row : ProductRow} {cats : List CategoryRow}
    (h : (updateDbWrite req db imageUrl calls).1 = .updated row cats) :
    db.updateProduct req.productId req.name (parseFloat req.price)
        (parseInt req.stockQuantity) imageUrl req.categoryId
      = some ((updateDbWrite req db imageUrl calls).2.1, row) ∧
    cats = Db.categoriesOf (updateDbWrite req db imageUrl calls).2.1 req.productId := by
  unfold updateDbWrite at h ⊢
  rcases hupd : db.updateProduct req.productId req.name (parseFloat req.price)
      (parseInt req.stockQuantity) imageUrl req.categoryId with _ | ⟨db2, row2⟩
  · rw [hupd] at h
    simp at h
  · rw [hupd] at h
    simp only [UpdateProductResp.updated.injEq] at h
    obtain ⟨hrow, hcats⟩ := h
    subst hrow
    exact ⟨rfl, hcats.symm⟩

/-- Helper: a 200 response from `updateProduct` means the handler reached
its database-write tail with some image URL and call trace; when no file was
supplied, that image URL is the existing row's. -/
theorem updateProduct_updated_inv {cloud : Cloudinary} {req : UpdateReq} {db : Db}
    {row : ProductRow} {cats : List CategoryRow}
    (hresp : (updateProduct cloud req db).1 = .updated row cats) :
    ∃ imageUrl calls,
      updateProduct cloud req db = updateDbWrite req db imageUrl calls ∧
      (req.file = none →
        ∃ ex, db.products.find? (fun p => p.productId == req.productId) = some ex ∧
          imageUrl = ex.imageUrl) := by
  unfold updateProduct at hresp ⊢
  rcases hfind : db.products.find? (fun p => p.productId == req.productId) with _ | ex
  · simp only [hfind] at hresp
    simp at hresp
  · simp only [hfind] at hresp ⊢
    rcases hfile : req.file with _ | file
    · exact ⟨ex.imageUrl, [], rfl, fun _ => ⟨ex, rfl, rfl⟩⟩
    · rcases hurl : ex.imageUrl with _ | url
      · rcases hup : cloud.upload file.path with u | m
        · exact ⟨some u, [.upload file.path], by simp [hup], fun hc => by cases hc⟩
        · simp [hfile, hurl, hup] at hresp
      · by_cases hkey : publicIdOf url = ""
        · rcases hup : cloud.upload file.path with u | m
          · exact ⟨some u, [.upload file.path], by simp [hkey, hup], fun hc => by cases hc⟩
          · simp [hfile, hurl, hkey, hup] at hresp
        · rcases hdes : cloud.destroy ("products/" ++ publicIdOf url) with _ | m
          · rcases hup : cloud.upload file.path with u | m2
            · exact ⟨some u, [.destroy ("products/" ++ publicIdOf url), .upload file.path],
                by simp [hkey, hdes, hup], fun hc => by cases hc⟩
            · simp [hfile, hurl, hkey, hdes, hup] at hresp
          · simp [hfile, hurl, hkey, hdes] at hresp

/-- C5: a successful update response connects the product to exactly one
category — the supplied one: the included category list is the singleton of
the category carrying the supplied id, and the join table afterwards links
the product to that id alone. -/
theorem updateProduct_single_category (cloud : Cloudinary) (req : UpdateReq)
    (db : Db) (cid : String) (row : ProductRow) (cats : List CategoryRow)
    (hcid : req.categoryId = some cid)
    (huniq : db.categories.Pairwise (fun a b => a.categoryId ≠ b.categoryId))
    (hresp : (updateProduct cloud req db).1 = .updated row cats) :
    (∃ cat ∈ db.categories, cat.categoryId = cid ∧ cats = [cat]) ∧
    (∀ c, (c, req.productId) ∈ (updateProduct cloud req db).2.1.links ↔ c = cid) := by
  obtain ⟨imageUrl, calls, heq, -⟩ := updateProduct_updated_inv hresp
  rw [heq] at hresp ⊢
  obtain ⟨hupd, hcats⟩ := updateDbWrite_updated_inv hresp
  obtain ⟨old, cid2, hfind, hcid2, hany, hrow, hdb2⟩ := Db.updateProduct_inv hupd
  rw [hcid] at hcid2
  injection hcid2 with hcid3
  subst hcid3
  constructor
  · rcases List.any_eq_true.mp hany with ⟨cat, hcmem, hcc⟩
    refine ⟨cat, hcmem, beq_iff_eq.mp hcc, ?_⟩
    rw [hcats, hdb2, categoriesOf_reset_link db req.productId cid
      (db.products.map (fun p => if p.productId == req.productId then row else p))]
    exact filter_eq_singleton_of_unique huniq hcmem (beq_iff_eq.mp hcc)
  · intro c
    rw [hdb2]
    simp [List.mem_append, List.mem_filter, Prod.ext_iff]

/-- Witness for C5: updating the one product from category c0 to c1. -/
theorem updateProduct_single_category_witness :
    (⟨"p1", some "Cup", some "8", some "4", some "c1", none⟩ : UpdateReq).categoryId
        = some "c1" ∧
    ([⟨"c0", "Old", none⟩, ⟨"c1", "Cups", none⟩] : List CategoryRow).Pairwise
        (fun a b => a.categoryId ≠ b.categoryId) ∧
    (updateProduct ⟨fun _ => .ok "u", fun _ => .ok⟩
        ⟨"p1", some "Cup", some "8", some "4", some "c1", none⟩
        ⟨[⟨"p1", "Mug", ⟨some "9.5"⟩, ⟨some "7"⟩, none, 0⟩],
          [⟨"c0", "Old", none⟩, ⟨"c1", "Cups", none⟩], [("c0", "p1")]⟩).1
      = .updated ⟨"p1", "Cup", ⟨some "8"⟩, ⟨some "4"⟩, none, 0⟩ [⟨"c1", "Cups", none⟩] ∧
    ((∃ cat ∈ ([⟨"c0", "Old", none⟩, ⟨"c1", "Cups", none⟩] : List CategoryRow),
        cat.categoryId = "c1" ∧ ([⟨"c1", "Cups", none⟩] : List CategoryRow) = [cat]) ∧
     (∀ c, (c, (⟨"p1", some "Cup", some "8", some "4", some "c1", none⟩ : UpdateReq).productId)
          ∈ (updateProduct ⟨fun _ => .ok "u", fun _ => .ok⟩
              ⟨"p1", some "Cup", some "8", some "4", some "c1", none⟩
              ⟨[⟨"p1", "Mug", ⟨some "9.5"⟩, ⟨some "7"⟩, none, 0⟩],
                [⟨"c0", "Old", none⟩, ⟨"c1", "Cups", none⟩], [("c0", "p1")]⟩).2.1.links
        ↔ c = "c1")) :=
  ⟨rfl, by decide, by decide,
   updateProduct_single_category ⟨fun _ => .ok "u", fun _ => .ok⟩
     ⟨"p1", some "Cup", some "8", some "4", some "c1", none⟩
     ⟨[⟨"p1", "Mug", ⟨some "9.5"⟩, ⟨some "7"⟩, none, 0⟩],
       [⟨"c0", "Old", none⟩, ⟨"c1", "Cups", none⟩], [("c0", "p1")]⟩
     "c1" ⟨"p1", "Cup", ⟨some "8"⟩, ⟨some "4"⟩, none, 0⟩ [⟨"c1", "Cups", none⟩]
     rfl (by decide) (by decide)⟩

/-- C10: the PUT product route mounts no multipart middleware, so the
handler sees no file; with no file, `updateProduct` issues no media-host
call, and any successful update keeps the stored image URL of the existing
row. -/
theorem updateRoute_no_upload_middleware (cloud : Cloudinary) (req : UpdateReq)
    (db : Db) (hfile : req.file = none) :
    (∀ r ∈ routes, r.handler = "updateProduct" →
        r.method = "put" ∧ r.path = "/products/:productId" ∧ r.middlewares = []) ∧
    (updateProduct cloud req db).2.2 = [] ∧
    (∀ row cats ex,
        (updateProduct cloud req db).1 = .updated row cats →
        db.products.find? (fun p => p.productId == req.productId) = some ex →
        row.imageUrl = ex.imageUrl) := by
  refine ⟨by decide, ?_, ?_⟩
  · rcases hfind : db.products.find? (fun p => p.productId == req.productId) with _ | ex
    · simp [updateProduct, hfind]
    · simp only [updateProduct, hfind, hfile]
      unfold updateDbWrite
      rcases hupd : db.updateProduct req.productId req.name (parseFloat req.price)
          (parseInt req.stockQuantity) ex.imageUrl req.categoryId with _ | ⟨db2, row2⟩ <;>
        simp [hupd]
  · intro row cats ex hresp hfind
    obtain ⟨imageUrl, calls, heq, himg⟩ := updateProduct_updated_inv hresp
    obtain ⟨ex2, hfind2, himgeq⟩ := himg hfile
    rw [hfind] at hfind2
    injection hfind2 with hex
    rw [heq] at hresp
    obtain ⟨hupd, -⟩ := updateDbWrite_updated_inv hresp
    obtain ⟨old, cid, -, -, -, hrow, -⟩ := Db.updateProduct_inv hupd
    rw [hrow]
    simp [himgeq, hex]

/-- Witness for C10: a fileless update of the one product keeps its URL. -/
theorem updateRoute_no_upload_middleware_witness :
    (⟨"p1", some "Cup", some "8", some "4", some "c1", none⟩ : UpdateReq).file = none ∧
    ((∀ r ∈ routes, r.handler = "updateProduct" →
        r.method = "put" ∧ r.path = "/products/:productId" ∧ r.middlewares = []) ∧
     (updateProduct ⟨fun _ => .ok "u", fun _ => .ok⟩
        ⟨"p1", some "Cup", some "8", some "4", some "c1", none⟩
        ⟨[⟨"p1", "Mug", ⟨some "9.5"⟩, ⟨some "7"⟩, some "https://host/products/mug1.png", 0⟩],
          [⟨"c1", "Cups", none⟩], [("c1", "p1")]⟩).2.2 = [] ∧
     (∀ row cats ex,
        (updateProduct ⟨fun _ => .ok "u", fun _ => .ok⟩
          ⟨"p1", some "Cup", some "8", some "4", some "c1", none⟩
          ⟨[⟨"p1", "Mug", ⟨some "9.5"⟩, ⟨some "7"⟩, some "https://host/products/mug1.png", 0⟩],
            [⟨"c1", "Cups", none⟩], [("c1", "p1")]⟩).1 = .updated row cats →
        (⟨[⟨"p1", "Mug", ⟨some "9.5"⟩, ⟨some "7"⟩, some "https://host/products/mug1.png", 0⟩],
           [⟨"c1", "Cups", none⟩], [("c1", "p1")]⟩ : Db).products.find?
            (fun p => p.productId ==
              (⟨"p1", some "Cup", some "8", some "4", some "c1", none⟩ : UpdateReq).productId)
          = some ex →
        row.imageUrl = ex.imageUrl)) :=
  ⟨rfl,
   updateRoute_no_upload_middleware ⟨fun _ => .ok "u", fun _ => .ok⟩
     ⟨"p1", some "Cup", some "8", some "4", some "c1", none⟩
     ⟨[⟨"p1", "Mug", ⟨some "9.5"⟩, ⟨some "7"⟩, some "https://host/products/mug1.png", 0⟩],
       [⟨"c1", "Cups", none⟩], [("c1", "p1")]⟩ rfl⟩

/-- Helper: after appending a fresh product row and its single link, the
categories included for the new product id are exactly those whose id is
the connected one, provided no pre-existing link mentions the new id. -/
theorem categoriesOf_fresh_link (db : Db) (pid cid : String) (row : ProductRow)
    (hfresh : ∀ l ∈ db.links, l.2 ≠ pid) :
    Db.categoriesOf ⟨db.products ++ [row], db.categories, db.links ++ [(cid, pid)]⟩ pid
      = db.categories.filter (fun c => c.categoryId == cid) := by
  unfold Db.categoriesOf
  apply List.filter_congr
  intro c _
  rw [Bool.eq_iff_iff]
  simp only [List.any_append, Bool.or_eq_true, List.any_eq_true, Bool.and_eq_true,
    beq_iff_eq, List.any_cons, List.any_nil, Bool.or_false]
  constructor
  · rintro (⟨l, hl, _, h2⟩ | ⟨h1, _⟩)
    · exact absurd h2 (hfresh l hl)
    · exact h1.symm
  · intro h
    exact Or.inr ⟨h.symm, trivial⟩

/-- C9: a fully-valid create whose upload and database write succeed is
answered 201 with the created row storing the returned secure URL, connected
to exactly the one supplied category. -/
theorem createProduct_success (cloud : Cloudinary) (now : Int) (req : CreateReq)
    (db : Db) (file : FileUpload) (pid nm cid u : String) (cat : CategoryRow)
    (hmf : computeMissingFields req = [])
    (hfile : req.file = some file)
    (hpid : req.productId = some pid)
    (hnm : req.name = some nm)
    (hcid : req.categoryId = some cid)
    (hup : cloud.upload (dataURIOf file) = .ok u)
    (hfresh : ∀ p ∈ db.products, p.productId ≠ pid)
    (hfreshlink : ∀ l ∈ db.links, l.2 ≠ pid)
    (hcat : cat ∈ db.categories) (hcatid : cat.categoryId = cid)
    (huniq : db.categories.Pairwise (fun a b => a.categoryId ≠ b.categoryId)) :
    createProduct cloud now req db
      = (.created ⟨pid, nm, parseFloat req.price, parseInt req.stockQuantity, some u, now⟩
           [cat],
         ⟨db.products ++ [⟨pid, nm, parseFloat req.price, parseInt req.stockQuantity, some u, now⟩],
          db.categories, db.links ++ [(cid, pid)]⟩,
         [.upload (dataURIOf file)]) ∧
    (CreateProductResp.created
        ⟨pid, nm, parseFloat req.price, parseInt req.stockQuantity, some u, now⟩
        [cat]).status = 201 := by
  have hanyp : db.products.any (fun p => p.productId == pid) = false := by
    rw [List.any_eq_false]
    intro p hp
    simp only [beq_iff_eq]
    exact hfresh p hp
  have hanyc : db.categories.any (fun c => c.categoryId == cid) = true :=
    List.any_eq_true.mpr ⟨cat, hcat, by simp [beq_iff_eq, hcatid]⟩
  refine ⟨?_, rfl⟩
  simp only [createProduct, hmf, List.length_nil, gt_iff_lt, lt_irrefl, if_false, hfile, hup]
  simp only [createDbWrite, hpid, hnm, hcid, Db.createProduct, hanyp, hanyc,
    Bool.false_eq_true, if_false, if_true]
  rw [categoriesOf_fresh_link db pid cid
    ⟨pid, nm, parseFloat req.price, parseInt req.stockQuantity, some u, now⟩ hfreshlink,
    filter_eq_singleton_of_unique huniq hcat hcatid]

/-- Witness for C9: a complete create request against a one-category
database with a succeeding upload. -/
theorem createProduct_success_witness :
    computeMissingFields ⟨some "p1", some "Mug", some "9.5", some "7", some "c1",
        some ⟨[77], "image/png", "p"⟩⟩ = [] ∧
    (⟨some "p1", some "Mug", some "9.5", some "7", some "c1",
        some ⟨[77], "image/png", "p"⟩⟩ : CreateReq).file = some ⟨[77], "image/png", "p"⟩ ∧
    (⟨some "p1", some "Mug", some "9.5", some "7", some "c1",
        some ⟨[77], "image/png", "p"⟩⟩ : CreateReq).productId = some "p1" ∧
    (⟨some "p1", some "Mug", some "9.5", some "7", some "c1",
        some ⟨[77], "image/png", "p"⟩⟩ : CreateReq).name = some "Mug" ∧
    (⟨some "p1", some "Mug", some "9.5", some "7", some "c1",
        some ⟨[77], "image/png", "p"⟩⟩ : CreateReq).categoryId = some "c1" ∧
    (⟨fun _ => .ok "https://host/products/mug1.png", fun _ => .ok⟩ : Cloudinary).upload
        (dataURIOf ⟨[77], "image/png", "p"⟩) = .ok "https://host/products/mug1.png" ∧
    (∀ p ∈ ([] : List ProductRow), p.productId ≠ "p1") ∧
    (∀ l ∈ ([] : List (String × String)), l.2 ≠ "p1") ∧
    (⟨"c1", "Cups", none⟩ : CategoryRow) ∈ [(⟨"c1", "Cups", none⟩ : CategoryRow)] ∧
    (⟨"c1", "Cups", none⟩ : CategoryRow).categoryId = "c1" ∧
    ([(⟨"c1", "Cups", none⟩ : CategoryRow)]).Pairwise
        (fun a b => a.categoryId ≠ b.categoryId) ∧
    (createProduct ⟨fun _ => .ok "https://host/products/mug1.png", fun _ => .ok⟩ 0
        ⟨some "p1", some "Mug", some "9.5", some "7", some "c1", some ⟨[77], "image/png", "p"⟩⟩
        ⟨[], [⟨"c1", "Cups", none⟩], []⟩
      = (.created
           ⟨"p1", "Mug", parseFloat (some "9.5"), parseInt (some "7"),
             some "https://host/products/mug1.png", 0⟩ [⟨"c1", "Cups", none⟩],
         ⟨[] ++ [⟨"p1", "Mug", parseFloat (some "9.5"), parseInt (some "7"),
             some "https://host/products/mug1.png", 0⟩],
          [⟨"c1", "Cups", none⟩], [] ++ [("c1", "p1")]⟩,
         [.upload (dataURIOf ⟨[77], "image/png", "p"⟩)]) ∧
     (CreateProductResp.created
        ⟨"p1", "Mug", parseFloat (some "9.5"), parseInt (some "7"),
          some "https://host/products/mug1.png", 0⟩ [⟨"c1", "Cups", none⟩]).status = 201) :=
  ⟨by decide, rfl, rfl, rfl, rfl, rfl, by decide, by decide, by decide, rfl, by decide,
   createProduct_success ⟨fun _ => .ok "https://host/products/mug1.png", fun _ => .ok⟩ 0
     ⟨some "p1", some "Mug", some "9.5", some "7", some "c1", some ⟨[77], "image/png", "p"⟩⟩
     ⟨[], [⟨"c1", "Cups", none⟩], []⟩ ⟨[77], "image/png", "p"⟩ "p1" "Mug" "c1"
     "https://host/products/mug1.png" ⟨"c1", "Cups", none⟩
     (by decide) rfl rfl rfl rfl rfl (by decide) (by decide) (by decide) rfl (by decide)⟩

/-- Helper: every category retained by the new-arrivals existence clause has
a non-empty included product list, so the post-query filter drops nothing. -/
theorem newArrivals_post_filter_keeps_all (db : Db) (cutoff : Int) :
    (getNewArrivalsNoPostFilter db cutoff).filter (fun cw => cw.products.length > 0)
      = getNewArrivalsNoPostFilter db cutoff := by
  rw [List.filter_eq_self]
  intro cw hmem
  rcases List.mem_map.mp hmem with ⟨c, hc, rfl⟩
  rcases List.mem_filter.mp hc with ⟨-, hany⟩
  rcases List.any_eq_true.mp hany with ⟨p, hp, hcond⟩
  have hmemp : p ∈ db.products.filter
      (fun q => linkedTo db c.categoryId q.productId && isRecent cutoff q) :=
    List.mem_filter.mpr ⟨hp, hcond⟩
  have hpos : 0 < (db.products.filter
      (fun q => linkedTo db c.categoryId q.productId && isRecent cutoff q)).length :=
    List.length_pos.mpr (List.ne_nil_of_mem hmemp)
  simp only [recentProductsOf, decide_eq_true_eq, gt_iff_lt, List.length_mergeSort]
  exact hpos

/-- C8: the post-query filter of `getNewArrivals` is redundant — on every
database state the handler's result equals the query result without it. -/
theorem getNewArrivals_post_filter_redundant (db : Db) (cutoff : Int) :
    getNewArrivals db cutoff = getNewArrivalsNoPostFilter db cutoff :=
  newArrivals_post_filter_keeps_all db cutoff

/-- C7: `getNewArrivals` returns exactly the categories having at least one
linked product created within the window, each carrying exactly its linked
in-window products ordered by creation timestamp descending (and hence a
non-empty list). -/
theorem getNewArrivals_returns_recent_categories (db : Db) (cutoff : Int) :
    (∀ c : CategoryRow,
        c ∈ (getNewArrivals db cutoff).map (fun cw => cw.category) ↔
          (c ∈ db.categories ∧ ∃ p ∈ db.products,
            linkedTo db c.categoryId p.productId = true ∧ cutoff ≤ p.createdAt)) ∧
    (∀ cw ∈ getNewArrivals db cutoff, ∀ p : ProductRow,
        p ∈ cw.products ↔
          (p ∈ db.products ∧ linkedTo db cw.category.categoryId p.productId = true ∧
            cutoff ≤ p.createdAt)) ∧
    (∀ cw ∈ getNewArrivals db cutoff,
        cw.products.Pairwise (fun a b => b.createdAt ≤ a.createdAt)) ∧
    (∀ cw ∈ getNewArrivals db cutoff, cw.products ≠ []) := by
  have hid : getNewArrivals db cutoff = getNewArrivalsNoPostFilter db cutoff :=
    newArrivals_post_filter_keeps_all db cutoff
  refine ⟨?_, ?_, ?_, ?_⟩
  · intro c
    rw [hid]
    simp [getNewArrivalsNoPostFilter, List.mem_filter, List.any_eq_true, isRecent,
      List.map_map, Function.comp]
  · intro cw hmem p
    rw [hid] at hmem
    rcases List.mem_map.mp hmem with ⟨c, -, rfl⟩
    simp [recentProductsOf, List.mem_mergeSort, List.mem_filter, isRecent]
  · intro cw hmem
    rw [hid] at hmem
    rcases List.mem_map.mp hmem with ⟨c, -, rfl⟩
    have hs := @List.sorted_mergeSort ProductRow
      (fun a b : ProductRow => decide (b.createdAt ≤ a.createdAt))
      (fun a b c hab hbc => by
        simp only [decide_eq_true_eq] at hab hbc ⊢
        exact le_trans hbc hab)
      (fun a b => by
        simp only [Bool.or_eq_true, decide_eq_true_eq]
        exact le_total b.createdAt a.createdAt)
      (db.products.filter (fun p => linkedTo db c.categoryId p.productId && isRecent cutoff p))
    exact hs.imp (fun h => of_decide_eq_true h)
  · intro cw hmem
    unfold getNewArrivals at hmem
    have hlen := (List.mem_filter.mp hmem).2
    simp only [decide_eq_true_eq, gt_iff_lt] at hlen
    exact List.length_pos.mp hlen
